import Mathlib

/-!
Verification of the TensorFlow Lite element-wise `Mul` kernel
(`tensorflow/contrib/lite/kernels/mul.cc`) against its natural-language
specification.

The kernel source is shallowly embedded below.  Pure helper routines that the
kernel calls but whose bodies live outside this file's source tree
(`HaveSameShapes`, `CalculateShapeForBroadcast`, `QuantizeMultiplierSmallerThanOne`,
`CalculateActivationRangeFloat`, `CalculateActivationRangeUint8`, and the
`reference_ops` / `optimized_ops` multiply loops) are modelled from the spec;
each such definition says so in its doc comment.  Floating-point values are
idealised as exact rationals.
-/

namespace TfLiteMul

/-- The tensor element-type tag (`TfLiteType`); the kernel distinguishes
`kTfLiteFloat32`, `kTfLiteUInt8`, and treats everything else as unsupported. -/
inductive TfLiteType where
  | float32
  | uint8
  | int32
  | int64
  deriving DecidableEq, Repr

/-- Affine quantization parameters of a tensor (`TfLiteQuantizationParams`):
`real_value = scale * (stored_integer - zero_point)`. -/
structure QuantParams where
  scale : ℚ
  zero_point : ℤ
  deriving DecidableEq, Repr

/-- A tensor descriptor plus its data buffer.  The single raw byte buffer of a
`TfLiteTensor` is modelled as two typed views: `dataF` is the buffer read
through `GetTensorData<float>`, `dataU` the buffer read through
`GetTensorData<uint8_t>` (stored integers as `ℤ`). -/
structure Tensor where
  type : TfLiteType
  dims : List ℕ
  dataF : List ℚ
  dataU : List ℤ
  params : QuantParams
  deriving DecidableEq, Repr

/-- The three `Mul` implementations (`enum KernelType`). -/
inductive KernelType where
  | kReference
  | kGenericOptimized
  | kNeonOptimized
  deriving DecidableEq, Repr

/-- The per-instance state persisted between `Prepare` and `Eval`
(`struct OpData`): a single `requires_broadcast` flag. -/
structure OpData where
  requires_broadcast : Bool
  deriving DecidableEq, Repr

/-- The activation kinds relevant to `TfLiteMulParams::activation`. -/
inductive ActivationKind where
  | actNone
  | actRelu
  | actReluN1To1
  | actRelu6
  deriving DecidableEq, Repr

/-- `TfLiteMulParams`: the node's builtin data. -/
structure MulParams where
  activation : ActivationKind
  deriving DecidableEq, Repr

/-- Failure modes surfaced by `Prepare`/`Eval`.  The C code returns a bare
`kTfLiteError` in every case; the constructors record which check failed so
that statements about the failure taxonomy can be made. -/
inductive KernelError where
  | ensureFailed
  | shapeMismatch
  | unsupportedType (t : TfLiteType)
  deriving DecidableEq, Repr

/-- `Init`: allocates the `OpData` and sets `requires_broadcast = false`. -/
def Init : OpData := { requires_broadcast := false }

/-- Modelled from the spec: `HaveSameShapes` (kernel_util) — two tensors are
shape-identical iff they have the same rank and the same extents in order. -/
def HaveSameShapes (t1 t2 : Tensor) : Bool := t1.dims = t2.dims

/-- Modelled from the spec: the dimension-pair rule of
`CalculateShapeForBroadcast`, on trailing-aligned (reversed) shape lists.  A
pair `(a, b)` is legal iff `a = b`, `a = 1`, or `b = 1`; the resolved extent is
`max a b`; a shorter shape is padded with virtual leading 1s (here: the
leftover of the longer reversed list is taken as-is). -/
def broadcastRev : List ℕ → List ℕ → Option (List ℕ)
  | [], ys => some ys
  | x :: xs, [] => some (x :: xs)
  | x :: xs, y :: ys =>
      if x = y ∨ x = 1 ∨ y = 1 then
        (broadcastRev xs ys).map (fun zs => max x y :: zs)
      else
        none

/-- Modelled from the spec: `CalculateShapeForBroadcast` — align the two
shapes on their trailing dimensions and resolve each pair, failing with a
shape mismatch when a pair is incompatible. -/
def CalculateShapeForBroadcast (d1 d2 : List ℕ) : Option (List ℕ) :=
  (broadcastRev d1.reverse d2.reverse).map List.reverse

/-- `Prepare` (the negotiation phase), embedded statement by statement with
the early returns of the `TF_LITE_ENSURE*` macros.  The result carries the
status together with the final `OpData` and output tensor, so that partial
mutation before a failing check is observable.  `ResizeTensor` is modelled as
setting the output's `dims` (the external allocator is assumed to succeed). -/
def Prepare (numInputs numOutputs : ℕ) (input1 input2 output : Tensor)
    (data : OpData) : Except KernelError Unit × OpData × Tensor :=
  if numInputs ≠ 2 then (.error .ensureFailed, data, output)
  else if numOutputs ≠ 1 then (.error .ensureFailed, data, output)
  else if input1.type ≠ input2.type then (.error .ensureFailed, data, output)
  else
    let output1 : Tensor := { output with type := input2.type }
    let data1 : OpData := { data with requires_broadcast := !HaveSameShapes input1 input2 }
    if data1.requires_broadcast then
      match CalculateShapeForBroadcast input1.dims input2.dims with
      | none => (.error .shapeMismatch, data1, output1)
      | some sz => (.ok (), data1, { output1 with dims := sz })
    else
      (.ok (), data1, { output1 with dims := input1.dims })

/-- Stand-in for the largest finite `float` value (the exact constant is
irrelevant to every claim; only "no clamping" matters). -/
def floatMax : ℚ := 2 ^ 128

/-- Modelled from the spec: `CalculateActivationRangeFloat` — the output
activation range `(min, max)` in real-value units for the configured
activation kind; the no-clamping kind yields the full representable range. -/
def CalculateActivationRangeFloat (a : ActivationKind) : ℚ × ℚ :=
  match a with
  | .actNone => (-floatMax, floatMax)
  | .actRelu => (0, floatMax)
  | .actReluN1To1 => (-1, 1)
  | .actRelu6 => (0, 6)

/-- Modelled from the spec: `CalculateActivationRangeUint8` — map the
activation kind's real-valued bounds through the output's
`(scale, zero_point)` pair, rounding to the nearest integer and clamping to
the `uint8` storage range `[0, 255]`; the no-clamping kind yields the full
range. -/
def CalculateActivationRangeUint8 (a : ActivationKind) (output : Tensor) : ℤ × ℤ :=
  let q : ℚ → ℤ := fun r =>
    max 0 (min 255 (output.params.zero_point + round (r / output.params.scale)))
  match a with
  | .actNone => (0, 255)
  | .actRelu => (q 0, 255)
  | .actReluN1To1 => (q (-1), q 1)
  | .actRelu6 => (q 0, q 6)

/-- Doubling loop of the fixed-point decomposition: double `x` until it
reaches `[1/2, 1)`, counting the steps; `fuel` bounds the recursion. -/
def qShiftAux : ℕ → ℚ → ℕ
  | 0, _ => 0
  | fuel + 1, x => if 1 / 2 ≤ x then 0 else qShiftAux fuel (2 * x) + 1

/-- The shift of the fixed-point decomposition of `x`: the number of doublings
needed to bring `x` into `[1/2, 1)`.  `x.den` doublings always suffice for
positive `x` because `x ≥ 1 / x.den` and `x.den < 2 ^ x.den`. -/
def qShift (x : ℚ) : ℕ := qShiftAux x.den x

/-- Modelled from the spec: `QuantizeMultiplierSmallerThanOne`
(quantization_util) — decompose a real multiplier in `(0, 1)` into a
normalized 32-bit fixed-point `multiplier` and a non-negative `shift` with
`x ≈ multiplier * 2 ^ (-(31 + shift))`: repeatedly double the fractional
multiplier until it lies in `[1/2, 1)` while counting shift steps, then round
to the nearest representable fixed-point integer (at most `2^31 - 1`). -/
def QuantizeMultiplierSmallerThanOne (x : ℚ) : ℤ × ℕ :=
  let s := qShift x
  (min (round (x * 2 ^ s * 2 ^ 31)) (2 ^ 31 - 1), s)

/-- Modelled from the spec: applying the fixed-point `multiplier`/`shift`
pair to a wide integer product — rescale by `m * 2 ^ (-(31 + s))`, rounding
to nearest. -/
def applyMultiplier (p m : ℤ) (s : ℕ) : ℤ :=
  round ((p * m : ℚ) / 2 ^ (31 + s))

/-- All multi-indices of a shape, in row-major (trailing-fastest) order —
the iteration order of the flat element sequence. -/
def allIndices : List ℕ → List (List ℕ)
  | [] => [[]]
  | d :: rest => (List.range d).flatMap (fun i => (allIndices rest).map (i :: ·))

/-- Flat (row-major) position of a multi-index within a shape. -/
def flatPos : List ℕ → List ℕ → ℕ
  | _ :: ds, i :: is => i * ds.prod + flatPos ds is
  | _, _ => 0

/-- Modelled from the spec: the broadcast source coordinate — align the input
shape on the trailing dimensions of the output coordinate and set a
coordinate to 0 wherever that input's extent is 1 (broadcast), else use the
output coordinate directly. -/
def srcIndex (inDims outIdx : List ℕ) : List ℕ :=
  List.zipWith (fun d i => if d = 1 then 0 else i)
    inDims (outIdx.drop (outIdx.length - inDims.length))

/-- `min (max x lo) hi`: the clamp of `ActivationFunctionWithMinMax`. -/
def clampQ (lo hi x : ℚ) : ℚ := min (max x lo) hi

/-- `min (max x lo) hi` on stored integers. -/
def clampZ (lo hi x : ℤ) : ℤ := min (max x lo) hi

/-- Modelled from the spec: the non-broadcast float multiply loop
(`Mul` of reference_ops/optimized_ops, which the spec requires to
produce identical results) — iterate the flat element sequences of both
inputs in lock-step, multiply, clamp to the activation range, write. -/
def mulFloatFlat (lo hi : ℚ) (d1 d2 : List ℚ) : List ℚ :=
  List.zipWith (fun a b => clampQ lo hi (a * b)) d1 d2

/-- Modelled from the spec: the broadcast float multiply loop
(`BroadcastMul` of reference_ops/optimized_ops) — iterate the
broadcast-resolved output index space; for each output coordinate read each
input at its broadcast source coordinate, multiply, clamp, write. -/
def broadcastMulFloat (lo hi : ℚ) (input1 input2 : Tensor) (outDims : List ℕ) : List ℚ :=
  (allIndices outDims).map (fun ix =>
    clampQ lo hi
      (input1.dataF.getD (flatPos input1.dims (srcIndex input1.dims ix)) 0 *
       input2.dataF.getD (flatPos input2.dims (srcIndex input2.dims ix)) 0))

/-- Modelled from the spec: the quantized broadcast multiply loop
(`BroadcastMul` of reference_ops/optimized_ops) — for each output
coordinate: read the stored integers, add each input's offset (the negated
zero_point), multiply in wide integer arithmetic, apply the fixed-point
multiplier/shift, add the output offset, clamp to the activation range,
write. -/
def broadcastMulQuant (off1 off2 outOff m : ℤ) (s : ℕ) (lo hi : ℤ)
    (input1 input2 : Tensor) (outDims : List ℕ) : List ℤ :=
  (allIndices outDims).map (fun ix =>
    let v1 := input1.dataU.getD (flatPos input1.dims (srcIndex input1.dims ix)) 0
    let v2 := input2.dataU.getD (flatPos input2.dims (srcIndex input2.dims ix)) 0
    clampZ lo hi (applyMultiplier ((v1 + off1) * (v2 + off2)) m s + outOff))

/-- `EvalFloat`: compute the activation range, then dispatch on the kernel
type and on `data->requires_broadcast` between the lock-step `Mul` loop and
the `BroadcastMul` loop, writing the float view of the output buffer. -/
def EvalFloat (kernel_type : KernelType) (params : MulParams) (data : OpData)
    (input1 input2 output : Tensor) : Tensor :=
  let r := CalculateActivationRangeFloat params.activation
  match kernel_type with
  | .kReference =>
      if data.requires_broadcast then
        { output with dataF := broadcastMulFloat r.1 r.2 input1 input2 output.dims }
      else
        { output with dataF := mulFloatFlat r.1 r.2 input1.dataF input2.dataF }
  | _ =>
      if data.requires_broadcast then
        { output with dataF := broadcastMulFloat r.1 r.2 input1 input2 output.dims }
      else
        { output with dataF := mulFloatFlat r.1 r.2 input1.dataF input2.dataF }

/-- `EvalQuantized`: compute the offsets, the fixed-point multiplier/shift
from the current quantization parameters, and the uint8 activation range;
then dispatch on the kernel type only — the quantized version of `Mul`
doesn't support activations, so `BroadcastMul` is always used. -/
def EvalQuantized (kernel_type : KernelType) (params : MulParams) (data : OpData)
    (input1 input2 output : Tensor) : Tensor :=
  let input1_offset := -input1.params.zero_point
  let input2_offset := -input2.params.zero_point
  let output_offset := output.params.zero_point
  let real_multiplier := input1.params.scale * input2.params.scale / output.params.scale
  let ms := QuantizeMultiplierSmallerThanOne real_multiplier
  let r := CalculateActivationRangeUint8 params.activation output
  let res := broadcastMulQuant input1_offset input2_offset output_offset
    ms.1 ms.2 r.1 r.2 input1 input2 output.dims
  match kernel_type with
  | .kReference => { output with dataU := res }
  | _ => { output with dataU := res }

/-- `Eval` (the execution phase): dispatch on the output's type tag; float32
goes to `EvalFloat`, uint8 to `EvalQuantized`, anything else reports the
offending tag and fails.  The status is returned together with the final
output tensor so that (absence of) mutation on the failure path is
observable. -/
def Eval (kernel_type : KernelType) (params : MulParams) (data : OpData)
    (input1 input2 output : Tensor) : Except KernelError Unit × Tensor :=
  if output.type = .float32 then
    (.ok (), EvalFloat kernel_type params data input1 input2 output)
  else if output.type = .uint8 then
    (.ok (), EvalQuantized kernel_type params data input1 input2 output)
  else
    (.error (.unsupportedType output.type), output)

/-- A uint8 input tensor used in concrete runs (shape `[2]`). -/
def exU1 : Tensor :=
  { type := .uint8, dims := [2], dataF := [1, 2], dataU := [3, 4], params := ⟨1, 0⟩ }

/-- A float32 output tensor whose type tag differs from `exU1`'s (shape `[2]`). -/
def exFOut : Tensor :=
  { type := .float32, dims := [2], dataF := [0, 0], dataU := [], params := ⟨1, 0⟩ }

/-- A uint8 tensor of shape `[2, 3]` for the broadcast-incompatible pair. -/
def exS1 : Tensor :=
  { type := .uint8, dims := [2, 3], dataF := [], dataU := [], params := ⟨1, 0⟩ }

/-- A uint8 tensor of shape `[4, 3]`: `[2,3]` vs `[4,3]` is broadcast-incompatible. -/
def exS2 : Tensor :=
  { type := .uint8, dims := [4, 3], dataF := [], dataU := [], params := ⟨1, 0⟩ }

/-- A uint8 input of shape `[1]`, stored value 10, scale `1/2`, zero_point 0. -/
def exQ1a : Tensor :=
  { type := .uint8, dims := [1], dataF := [], dataU := [10], params := ⟨1 / 2, 0⟩ }

/-- Same as `exQ1a` except for the scale (`1/4`): everything the negotiation
phase reads (type, dims) and everything cached is identical. -/
def exQ1b : Tensor :=
  { type := .uint8, dims := [1], dataF := [], dataU := [10], params := ⟨1 / 4, 0⟩ }

/-- A uint8 input of shape `[1]`, stored value 10, scale 1, zero_point 0. -/
def exQ2 : Tensor :=
  { type := .uint8, dims := [1], dataF := [], dataU := [10], params := ⟨1, 0⟩ }

/-- A uint8 output of shape `[1]`, scale 1, zero_point 0. -/
def exQOut : Tensor :=
  { type := .uint8, dims := [1], dataF := [], dataU := [0], params := ⟨1, 0⟩ }

/-- An int32-tagged tensor: a type tag outside the two supported domains. -/
def exIOut : Tensor :=
  { type := .int32, dims := [2], dataF := [], dataU := [], params := ⟨1, 0⟩ }

/-- A float32 input of shape `[2]` with values `[2, 3]` (the spec's test). -/
def exFIn1 : Tensor :=
  { type := .float32, dims := [2], dataF := [2, 3], dataU := [], params := ⟨1, 0⟩ }

/-- A float32 input of shape `[2]` with values `[4, 5]` (the spec's test). -/
def exFIn2 : Tensor :=
  { type := .float32, dims := [2], dataF := [4, 5], dataU := [], params := ⟨1, 0⟩ }

/-- C1: once past the arity and type checks, `Prepare` sets the cached
`requires_broadcast` flag to true exactly when the two input shapes are not
identical, and on identical shapes it succeeds, clears the flag, and resizes
the output to exactly the first input's shape. -/
theorem prepare_broadcast_flag (i1 i2 o : Tensor) (d : OpData)
    (h : i1.type = i2.type) :
    ((Prepare 2 1 i1 i2 o d).2.1.requires_broadcast = true ↔ i1.dims ≠ i2.dims) ∧
    (i1.dims = i2.dims →
      (Prepare 2 1 i1 i2 o d).1 = .ok () ∧
      (Prepare 2 1 i1 i2 o d).2.1.requires_broadcast = false ∧
      (Prepare 2 1 i1 i2 o d).2.2.dims = i1.dims) := by
  by_cases hd : i1.dims = i2.dims
  · simp [Prepare, HaveSameShapes, h, hd]
  · cases hopt : CalculateShapeForBroadcast i1.dims i2.dims <;>
      simp [Prepare, HaveSameShapes, h, hd, hopt]

/-- Witness for `prepare_broadcast_flag` at a concrete identical-shape pair. -/
theorem prepare_broadcast_flag_witness :
    exQ1a.type = exQ2.type ∧
    (((Prepare 2 1 exQ1a exQ2 exQOut Init).2.1.requires_broadcast = true ↔
        exQ1a.dims ≠ exQ2.dims) ∧
      (exQ1a.dims = exQ2.dims →
        (Prepare 2 1 exQ1a exQ2 exQOut Init).1 = .ok () ∧
        (Prepare 2 1 exQ1a exQ2 exQOut Init).2.1.requires_broadcast = false ∧
        (Prepare 2 1 exQ1a exQ2 exQOut Init).2.2.dims = exQ1a.dims)) :=
  ⟨by decide, prepare_broadcast_flag exQ1a exQ2 exQOut Init (by decide)⟩

/-- C2: `EvalQuantized` writes the result of the broadcasting iteration path
(`BroadcastMul`) unconditionally — for every kernel type and every cached
state, in particular when `requires_broadcast` is false. -/
theorem evalQuantized_always_broadcast (kernel_type : KernelType)
    (params : MulParams) (data : OpData) (input1 input2 output : Tensor) :
    (EvalQuantized kernel_type params data input1 input2 output).dataU =
      broadcastMulQuant (-input1.params.zero_point) (-input2.params.zero_point)
        output.params.zero_point
        (QuantizeMultiplierSmallerThanOne
          (input1.params.scale * input2.params.scale / output.params.scale)).1
        (QuantizeMultiplierSmallerThanOne
          (input1.params.scale * input2.params.scale / output.params.scale)).2
        (CalculateActivationRangeUint8 params.activation output).1
        (CalculateActivationRangeUint8 params.activation output).2
        input1 input2 output.dims := by
  cases kernel_type <;> rfl

/-- C9: the three numeric strategies are interchangeable in this kernel: for
every input, all kernel types produce identical float results, identical
quantized results, and identical `Eval` outcomes; in particular the
generic-optimized and platform-SIMD strategies take literally the same
dispatch branch. -/
theorem strategies_agree (kt1 kt2 : KernelType) (params : MulParams)
    (data : OpData) (input1 input2 output : Tensor) :
    EvalFloat kt1 params data input1 input2 output =
      EvalFloat kt2 params data input1 input2 output ∧
    EvalQuantized kt1 params data input1 input2 output =
      EvalQuantized kt2 params data input1 input2 output ∧
    Eval kt1 params data input1 input2 output =
      Eval kt2 params data input1 input2 output := by
  refine ⟨?_, ?_, ?_⟩ <;> cases kt1 <;> cases kt2 <;> rfl

/-- C3, counterexample: `Eval` performs no defensive re-check that the output
type tag equals the input tag.  With uint8 inputs and a float32 output — tags
that differ — `Eval` succeeds instead of failing. -/
theorem eval_no_type_recheck_cex :
    exU1.type ≠ exFOut.type ∧
    (Eval .kReference ⟨.actNone⟩ Init exU1 exU1 exFOut).1 = .ok () := by
  constructor
  · decide
  · rfl

/-- C3, amended: `Eval` re-reads the output's type tag and dispatches on it
alone (it never compares it with the input tag); it returns an error exactly
when that tag is neither float32 nor uint8, the error reports the offending
tag, and on that error the output is untouched — the only execution-time
failure path. -/
theorem eval_error_iff_unsupported (kernel_type : KernelType) (params : MulParams)
    (data : OpData) (input1 input2 output : Tensor) :
    ((Eval kernel_type params data input1 input2 output).1 = .ok () ↔
      output.type = .float32 ∨ output.type = .uint8) ∧
    (¬(output.type = .float32 ∨ output.type = .uint8) →
      Eval kernel_type params data input1 input2 output =
        (.error (.unsupportedType output.type), output)) := by
  by_cases hf : output.type = .float32
  · simp [Eval, hf]
  · by_cases hu : output.type = .uint8 <;> simp [Eval, hf, hu]

/-- Witness for `eval_error_iff_unsupported` at an int32-tagged output. -/
theorem eval_error_iff_unsupported_witness :
    ((Eval .kReference ⟨.actNone⟩ Init exU1 exU1 exIOut).1 = .ok () ↔
      exIOut.type = .float32 ∨ exIOut.type = .uint8) ∧
    (¬(exIOut.type = .float32 ∨ exIOut.type = .uint8) →
      Eval .kReference ⟨.actNone⟩ Init exU1 exU1 exIOut =
        (.error (.unsupportedType exIOut.type), exIOut)) :=
  eval_error_iff_unsupported .kReference ⟨.actNone⟩ Init exU1 exU1 exIOut

/-- C4: `Prepare` fails whenever the node does not declare exactly two inputs
and one output or the two inputs' type tags differ, and on such a
configuration error it leaves the cached state and output untouched (the
operator does not become ready); `Eval` never reports a configuration error
— its only failure is the unsupported-type check on the output tag. -/
theorem prepare_config_errors (numInputs numOutputs : ℕ) (i1 i2 o : Tensor)
    (d : OpData)
    (h : numInputs ≠ 2 ∨ numOutputs ≠ 1 ∨ i1.type ≠ i2.type) :
    (Prepare numInputs numOutputs i1 i2 o d).1 = .error .ensureFailed ∧
    (Prepare numInputs numOutputs i1 i2 o d).2 = (d, o) ∧
    (∀ kernel_type params d' e,
      (Eval kernel_type params d' i1 i2 o).1 = .error e →
        e = .unsupportedType o.type) := by
  have heval : ∀ kernel_type params d' e,
      (Eval kernel_type params d' i1 i2 o).1 = .error e →
        e = .unsupportedType o.type := by
    intro kernel_type params d' e he
    by_cases hf : o.type = .float32
    · simp [Eval, hf] at he
    · by_cases hu : o.type = .uint8 <;> simp [Eval, hf, hu] at he
      exact he.symm
  rcases h with h | h | h
  · exact ⟨by simp [Prepare, h], by simp [Prepare, h], heval⟩
  · by_cases h2 : numInputs = 2 <;>
      exact ⟨by simp [Prepare, h, h2], by simp [Prepare, h, h2], heval⟩
  · by_cases h2 : numInputs = 2 <;> by_cases h1 : numOutputs = 1 <;>
      exact ⟨by simp [Prepare, h, h2, h1], by simp [Prepare, h, h2, h1], heval⟩

/-- Witness for `prepare_config_errors`: a node declaring one input. -/
theorem prepare_config_errors_witness :
    ((1 : ℕ) ≠ 2 ∨ (1 : ℕ) ≠ 1 ∨ exU1.type ≠ exU1.type) ∧
    ((Prepare 1 1 exU1 exU1 exFOut Init).1 = .error .ensureFailed ∧
      (Prepare 1 1 exU1 exU1 exFOut Init).2 = (Init, exFOut) ∧
      (∀ kernel_type params d' e,
        (Eval kernel_type params d' exU1 exU1 exFOut).1 = .error e →
          e = .unsupportedType exFOut.type)) :=
  ⟨by decide, prepare_config_errors 1 1 exU1 exU1 exFOut Init (by decide)⟩

/-- C10: `Init` starts the persisted state with `requires_broadcast = false`,
so an `Eval` issued before any `Prepare` is not rejected: on a float32 output
it succeeds and takes the non-broadcast lock-step path. -/
theorem init_defaults_nonbroadcast (kernel_type : KernelType) (params : MulParams)
    (input1 input2 output : Tensor) (h : output.type = .float32) :
    Init.requires_broadcast = false ∧
    (Eval kernel_type params Init input1 input2 output).1 = .ok () ∧
    (Eval kernel_type params Init input1 input2 output).2.dataF =
      mulFloatFlat (CalculateActivationRangeFloat params.activation).1
        (CalculateActivationRangeFloat params.activation).2
        input1.dataF input2.dataF := by
  refine ⟨rfl, by simp [Eval, h], ?_⟩
  cases kernel_type <;> simp [Eval, h, EvalFloat, Init]

/-- Witness for `init_defaults_nonbroadcast` on a concrete float32 output. -/
theorem init_defaults_nonbroadcast_witness :
    exFOut.type = .float32 ∧
    (Init.requires_broadcast = false ∧
      (Eval .kReference ⟨.actNone⟩ Init exU1 exU1 exFOut).1 = .ok () ∧
      (Eval .kReference ⟨.actNone⟩ Init exU1 exU1 exFOut).2.dataF =
        mulFloatFlat (CalculateActivationRangeFloat ActivationKind.actNone).1
          (CalculateActivationRangeFloat ActivationKind.actNone).2
          exU1.dataF exU1.dataF) :=
  ⟨by decide, init_defaults_nonbroadcast .kReference ⟨.actNone⟩ exU1 exU1 exFOut (by decide)⟩

/-- C5, counterexample: on a broadcast-incompatible pair (`[2,3]` vs `[4,3]`),
`Prepare` fails with a shape mismatch but has already overwritten the output
tensor's type tag (float32 became uint8) and the cached `requires_broadcast`
flag — the failing call does not leave the tensors unmodified. -/
theorem prepare_mutates_before_shape_failure_cex :
    (Prepare 2 1 exS1 exS2 exFOut Init).1 = .error .shapeMismatch ∧
    (Prepare 2 1 exS1 exS2 exFOut Init).2.2.type ≠ exFOut.type ∧
    (Prepare 2 1 exS1 exS2 exFOut Init).2.1 ≠ Init := by
  refine ⟨rfl, ?_, ?_⟩ <;> decide

/-- C5, amended: every failing call performs no write to any data buffer and
no resize: a failing `Prepare` leaves the output's buffers and shape intact
(and on the arity/type-mismatch checks leaves the state and output fully
untouched, though on a shape mismatch the output's type tag and the cached
flag have already been updated), and a failing `Eval` returns the output
completely untouched. -/
theorem failure_makes_no_buffer_writes (numInputs numOutputs : ℕ)
    (i1 i2 o : Tensor) (d : OpData) (e : KernelError)
    (h : (Prepare numInputs numOutputs i1 i2 o d).1 = .error e) :
    ((Prepare numInputs numOutputs i1 i2 o d).2.2.dataF = o.dataF ∧
     (Prepare numInputs numOutputs i1 i2 o d).2.2.dataU = o.dataU ∧
     (Prepare numInputs numOutputs i1 i2 o d).2.2.dims = o.dims) ∧
    (e = .ensureFailed → (Prepare numInputs numOutputs i1 i2 o d).2 = (d, o)) ∧
    (∀ kernel_type params d' e',
      (Eval kernel_type params d' i1 i2 o).1 = .error e' →
        (Eval kernel_type params d' i1 i2 o).2 = o) := by
  have heval : ∀ kernel_type params d' e',
      (Eval kernel_type params d' i1 i2 o).1 = .error e' →
        (Eval kernel_type params d' i1 i2 o).2 = o := by
    intro kernel_type params d' e' he
    by_cases hf : o.type = .float32
    · simp [Eval, hf] at he
    · by_cases hu : o.type = .uint8 <;> simp [Eval, hf, hu] at he ⊢
  by_cases h2 : numInputs = 2
  · by_cases h1 : numOutputs = 1
    · by_cases ht : i1.type = i2.type
      · by_cases hd : i1.dims = i2.dims
        · simp [Prepare, HaveSameShapes, h2, h1, ht, hd] at h
        · cases hopt : CalculateShapeForBroadcast i1.dims i2.dims with
          | none =>
              have he : e = .shapeMismatch := by
                simp [Prepare, HaveSameShapes, h2, h1, ht, hd, hopt] at h
                exact h.symm
              subst he
              refine ⟨?_, ?_, heval⟩
              · simp [Prepare, HaveSameShapes, h2, h1, ht, hd, hopt]
              · intro hee
                cases hee
          | some sz =>
              simp [Prepare, HaveSameShapes, h2, h1, ht, hd, hopt] at h
      · simp_all [Prepare, heval]
    · simp_all [Prepare, heval]
  · simp_all [Prepare, heval]

/-- Witness for `failure_makes_no_buffer_writes` at the concrete
broadcast-incompatible pair. -/
theorem failure_makes_no_buffer_writes_witness :
    (Prepare 2 1 exS1 exS2 exFOut Init).1 = .error .shapeMismatch ∧
    (((Prepare 2 1 exS1 exS2 exFOut Init).2.2.dataF = exFOut.dataF ∧
      (Prepare 2 1 exS1 exS2 exFOut Init).2.2.dataU = exFOut.dataU ∧
      (Prepare 2 1 exS1 exS2 exFOut Init).2.2.dims = exFOut.dims) ∧
     (KernelError.shapeMismatch = .ensureFailed →
        (Prepare 2 1 exS1 exS2 exFOut Init).2 = (Init, exFOut)) ∧
     (∀ kernel_type params d' e',
        (Eval kernel_type params d' exS1 exS2 exFOut).1 = .error e' →
          (Eval kernel_type params d' exS1 exS2 exFOut).2 = exFOut)) :=
  ⟨by rfl, failure_makes_no_buffer_writes 2 1 exS1 exS2 exFOut Init
    .shapeMismatch (by rfl)⟩

/-- C6, counterexample: negotiation caches identical state for two
configurations that differ only in an input quantization scale, yet execution
produces different quantized outputs — so the fixed-point plan is computed by
`EvalQuantized` at execution time from the current parameters, not derived
during negotiation and reused from the cache. -/
theorem quant_plan_not_cached_cex :
    (Prepare 2 1 exQ1a exQ2 exQOut Init).2.1 = (Prepare 2 1 exQ1b exQ2 exQOut Init).2.1 ∧
    (EvalQuantized .kReference ⟨.actNone⟩ (Prepare 2 1 exQ1a exQ2 exQOut Init).2.1
        exQ1a exQ2 exQOut).dataU ≠
      (EvalQuantized .kReference ⟨.actNone⟩ (Prepare 2 1 exQ1b exQ2 exQOut Init).2.1
        exQ1b exQ2 exQOut).dataU := by
  have h1 : allIndices [1] = [[0]] := rfl
  have ha : ∀ d : OpData,
      (EvalQuantized .kReference ⟨.actNone⟩ d exQ1a exQ2 exQOut).dataU = [50] := by
    intro d
    simp [EvalQuantized, broadcastMulQuant, QuantizeMultiplierSmallerThanOne, qShift,
      qShiftAux, CalculateActivationRangeUint8, applyMultiplier, clampZ,
      srcIndex, flatPos, exQ1a, exQ2, exQOut, round_eq, h1]
    norm_num
  have hb : ∀ d : OpData,
      (EvalQuantized .kReference ⟨.actNone⟩ d exQ1b exQ2 exQOut).dataU = [25] := by
    intro d
    simp [EvalQuantized, broadcastMulQuant, QuantizeMultiplierSmallerThanOne, qShift,
      qShiftAux, CalculateActivationRangeUint8, applyMultiplier, clampZ,
      srcIndex, flatPos, exQ1b, exQ2, exQOut, round_eq, h1]
    norm_num
  exact ⟨by decide, by rw [ha, hb]; decide⟩

/-- C6, amended: the negotiation phase caches only the `requires_broadcast`
flag; the quantization plan is recomputed by `EvalQuantized` on every
execution from the current quantization parameters, and the execution result
does not depend on the cached state at all. -/
theorem quant_plan_recomputed_each_eval (kernel_type : KernelType)
    (params : MulParams) (d d' : OpData) (input1 input2 output : Tensor) :
    EvalQuantized kernel_type params d input1 input2 output =
      EvalQuantized kernel_type params d' input1 input2 output := by
  cases kernel_type <;> rfl

/-- C8: in the float domain, when `requires_broadcast` is false every kernel
type iterates the flat element sequences of both inputs in lock-step,
multiplies corresponding elements, clamps each product to the activation
range and writes it to the output; when the flag is true every kernel type
uses the broadcast iteration routine instead. -/
theorem evalFloat_dispatch (kernel_type : KernelType) (params : MulParams)
    (data : OpData) (input1 input2 output : Tensor) :
    (data.requires_broadcast = false →
      ((EvalFloat kernel_type params data input1 input2 output).dataF.length =
          min input1.dataF.length input2.dataF.length ∧
        ∀ k, k < input1.dataF.length → k < input2.dataF.length →
          (EvalFloat kernel_type params data input1 input2 output).dataF.getD k 0 =
            clampQ (CalculateActivationRangeFloat params.activation).1
              (CalculateActivationRangeFloat params.activation).2
              (input1.dataF.getD k 0 * input2.dataF.getD k 0))) ∧
    (data.requires_broadcast = true →
      (EvalFloat kernel_type params data input1 input2 output).dataF =
        broadcastMulFloat (CalculateActivationRangeFloat params.activation).1
          (CalculateActivationRangeFloat params.activation).2
          input1 input2 output.dims) := by
  constructor
  · intro hb
    have hdf : (EvalFloat kernel_type params data input1 input2 output).dataF =
        mulFloatFlat (CalculateActivationRangeFloat params.activation).1
          (CalculateActivationRangeFloat params.activation).2
          input1.dataF input2.dataF := by
      cases kernel_type <;> simp [EvalFloat, hb]
    rw [hdf]
    constructor
    · simp [mulFloatFlat]
    · intro k hk1 hk2
      have hk : k < (mulFloatFlat (CalculateActivationRangeFloat params.activation).1
          (CalculateActivationRangeFloat params.activation).2
          input1.dataF input2.dataF).length := by
        simp [mulFloatFlat]
        omega
      rw [List.getD_eq_getElem _ _ hk, List.getD_eq_getElem _ _ hk1,
        List.getD_eq_getElem _ _ hk2]
      simp [mulFloatFlat]
  · intro hb
    cases kernel_type <;> simp [EvalFloat, hb]

/-- Witness for `evalFloat_dispatch`: the lock-step case on the spec's test
vector `[2, 3] * [4, 5]`. -/
theorem evalFloat_dispatch_witness :
    Init.requires_broadcast = false ∧
    ((Init.requires_broadcast = false →
      ((EvalFloat .kReference ⟨.actNone⟩ Init exFIn1 exFIn2 exFOut).dataF.length =
          min exFIn1.dataF.length exFIn2.dataF.length ∧
        ∀ k, k < exFIn1.dataF.length → k < exFIn2.dataF.length →
          (EvalFloat .kReference ⟨.actNone⟩ Init exFIn1 exFIn2 exFOut).dataF.getD k 0 =
            clampQ (CalculateActivationRangeFloat ActivationKind.actNone).1
              (CalculateActivationRangeFloat ActivationKind.actNone).2
              (exFIn1.dataF.getD k 0 * exFIn2.dataF.getD k 0))) ∧
    (Init.requires_broadcast = true →
      (EvalFloat .kReference ⟨.actNone⟩ Init exFIn1 exFIn2 exFOut).dataF =
        broadcastMulFloat (CalculateActivationRangeFloat ActivationKind.actNone).1
          (CalculateActivationRangeFloat ActivationKind.actNone).2
          exFIn1 exFIn2 exFOut.dims)) :=
  ⟨rfl, evalFloat_dispatch .kReference ⟨.actNone⟩ Init exFIn1 exFIn2 exFOut⟩

/-- The doubling loop lands in `[1/2, 1)` whenever the fuel suffices. -/
theorem qShiftAux_bounds (f : ℕ) : ∀ x : ℚ, 0 < x → x < 1 → 1 / 2 ≤ x * 2 ^ f →
    1 / 2 ≤ x * 2 ^ qShiftAux f x ∧ x * 2 ^ qShiftAux f x < 1 := by
  induction f with
  | zero =>
      intro x hx0 hx1 hf
      simp only [pow_zero, mul_one] at hf
      simp only [qShiftAux, pow_zero, mul_one]
      exact ⟨hf, hx1⟩
  | succ f ih =>
      intro x hx0 hx1 hf
      by_cases hhalf : 1 / 2 ≤ x
      · simp only [qShiftAux, if_pos hhalf, pow_zero, mul_one]
        exact ⟨hhalf, hx1⟩
      · push_neg at hhalf
        have h2x0 : 0 < 2 * x := by linarith
        have h2x1 : 2 * x < 1 := by linarith
        have hrw : x * 2 ^ (f + 1) = 2 * x * 2 ^ f := by ring
        have hf' : 1 / 2 ≤ 2 * x * 2 ^ f := by rw [← hrw]; exact hf
        obtain ⟨ha, hb⟩ := ih (2 * x) h2x0 h2x1 hf'
        have hrw2 : x * 2 ^ (qShiftAux f (2 * x) + 1) = 2 * x * 2 ^ qShiftAux f (2 * x) := by
          ring
        constructor
        · simp only [qShiftAux, if_neg (not_le.mpr hhalf)]
          rw [hrw2]
          exact ha
        · simp only [qShiftAux, if_neg (not_le.mpr hhalf)]
          rw [hrw2]
          exact hb

/-- `x.den` doublings always suffice, so `qShift` lands `x * 2 ^ qShift x`
in `[1/2, 1)` for every `x` in `(0, 1)`. -/
theorem qShift_bounds (x : ℚ) (hx0 : 0 < x) (hx1 : x < 1) :
    1 / 2 ≤ x * 2 ^ qShift x ∧ x * 2 ^ qShift x < 1 := by
  apply qShiftAux_bounds x.den x hx0 hx1
  have hnumZ : (1 : ℤ) ≤ x.num := by
    have := Rat.num_pos.mpr hx0
    omega
  have hnum : (1 : ℚ) ≤ (x.num : ℚ) := by exact_mod_cast hnumZ
  have hden0 : (0 : ℚ) < (x.den : ℚ) := by exact_mod_cast x.den_pos
  have hxden : (1 : ℚ) ≤ x * (x.den : ℚ) := by
    have hxd : x * (x.den : ℚ) = (x.num : ℚ) := by
      nth_rewrite 1 [← Rat.num_div_den x]
      exact div_mul_cancel₀ _ (ne_of_gt hden0)
    rw [hxd]
    exact hnum
  have h2den : (x.den : ℚ) ≤ 2 ^ x.den := by exact_mod_cast (Nat.lt_two_pow x.den).le
  nlinarith [mul_nonneg hx0.le (sub_nonneg.mpr h2den)]

/-- Accuracy of the fixed-point decomposition:
`|multiplier * 2 ^ (-(31 + shift)) - x| < 2 ^ (-31)` for `x` in `(0, 1)`. -/
theorem multiplier_error (x : ℚ) (hx0 : 0 < x) (hx1 : x < 1) :
    |((QuantizeMultiplierSmallerThanOne x).1 : ℚ) /
        2 ^ (31 + (QuantizeMultiplierSmallerThanOne x).2) - x| < 1 / 2 ^ 31 := by
  obtain ⟨hy1, hy2⟩ := qShift_bounds x hx0 hx1
  have hm1 : (QuantizeMultiplierSmallerThanOne x).1 =
      min (round (x * 2 ^ qShift x * 2 ^ 31)) (2 ^ 31 - 1) := rfl
  have hm2 : (QuantizeMultiplierSmallerThanOne x).2 = qShift x := rfl
  rw [hm1, hm2]
  set s := qShift x with hs
  set y : ℚ := x * 2 ^ s with hy
  set q0 : ℤ := round (y * 2 ^ 31) with hq0
  have habs : |y * 2 ^ 31 - (q0 : ℚ)| ≤ 1 / 2 := abs_sub_round (y * 2 ^ 31)
  have hcore : |((min q0 (2 ^ 31 - 1) : ℤ) : ℚ) / 2 ^ 31 - y| < 1 / 2 ^ 31 := by
    by_cases hcase : q0 ≤ 2 ^ 31 - 1
    · rw [min_eq_left hcase]
      have hrw : ((q0 : ℚ) / 2 ^ 31 - y) = ((q0 : ℚ) - y * 2 ^ 31) / 2 ^ 31 := by ring
      rw [hrw, abs_div, abs_of_pos (by positivity : (0 : ℚ) < 2 ^ 31)]
      have hq : |(q0 : ℚ) - y * 2 ^ 31| ≤ 1 / 2 := by rwa [abs_sub_comm] at habs
      have : |(q0 : ℚ) - y * 2 ^ 31| / 2 ^ 31 ≤ (1 / 2) / 2 ^ 31 := by gcongr
      have hlt : ((1 : ℚ) / 2) / 2 ^ 31 < 1 / 2 ^ 31 := by norm_num
      linarith
    · push_neg at hcase
      rw [min_eq_right (by omega : (2 ^ 31 - 1 : ℤ) ≤ q0)]
      have hq0ge : ((2 ^ 31 : ℤ) : ℚ) ≤ (q0 : ℚ) := by exact_mod_cast (by omega : (2 ^ 31 : ℤ) ≤ q0)
      have hyub : y * 2 ^ 31 < 2 ^ 31 := by nlinarith
      have hylb : (2 ^ 31 : ℚ) - 1 / 2 ≤ y * 2 ^ 31 := by
        have h1 := (abs_le.mp habs).1
        push_cast at hq0ge
        linarith
      push_cast
      have hrw : (2147483647 : ℚ) / 2 ^ 31 - y = (2147483647 - y * 2 ^ 31) / 2 ^ 31 := by
        field_simp
        ring
      rw [hrw, abs_div, abs_of_pos (show (0 : ℚ) < 2 ^ 31 by positivity)]
      have hAbs : |(2147483647 : ℚ) - y * 2 ^ 31| < 1 := by
        rw [abs_lt]
        constructor <;> nlinarith
      have hfin : |(2147483647 : ℚ) - y * 2 ^ 31| / 2 ^ 31 < 1 / 2 ^ 31 := by
        gcongr
      exact hfin
  have hxy : x = y / 2 ^ s := by
    rw [hy]
    field_simp
  have hsplit : ((min q0 (2 ^ 31 - 1) : ℤ) : ℚ) / 2 ^ (31 + s) - x =
      (((min q0 (2 ^ 31 - 1) : ℤ) : ℚ) / 2 ^ 31 - y) / 2 ^ s := by
    rw [hxy, pow_add]
    field_simp
    ring
  rw [hsplit, abs_div, abs_of_pos (by positivity : (0 : ℚ) < 2 ^ s)]
  have h2s : (1 : ℚ) ≤ 2 ^ s := one_le_pow₀ (by norm_num)
  have hle : |((min q0 (2 ^ 31 - 1) : ℤ) : ℚ) / 2 ^ 31 - y| / 2 ^ s ≤
      |((min q0 (2 ^ 31 - 1) : ℤ) : ℚ) / 2 ^ 31 - y| :=
    div_le_self (abs_nonneg _) h2s
  linarith

/-- Applying the fixed-point multiplier/shift to a zero-centered product
reproduces the real-valued product within 1 output quantization step. -/
theorem apply_multiplier_error (x : ℚ) (p : ℤ) (hx0 : 0 < x) (hx1 : x < 1)
    (hp : |p| ≤ 65025) :
    |((applyMultiplier p (QuantizeMultiplierSmallerThanOne x).1
        (QuantizeMultiplierSmallerThanOne x).2 : ℤ) : ℚ) - p * x| ≤ 1 := by
  have h1 := multiplier_error x hx0 hx1
  set m : ℤ := (QuantizeMultiplierSmallerThanOne x).1 with hm
  set s : ℕ := (QuantizeMultiplierSmallerThanOne x).2 with hs
  set t : ℚ := ((p : ℚ) * (m : ℚ)) / 2 ^ (31 + s) with ht
  have happly : ((applyMultiplier p m s : ℤ) : ℚ) = ((round t : ℤ) : ℚ) := by
    simp [applyMultiplier, ht]
  rw [happly]
  have h2 : |t - ((round t : ℤ) : ℚ)| ≤ 1 / 2 := abs_sub_round t
  have h3 : t - (p : ℚ) * x = (p : ℚ) * ((m : ℚ) / 2 ^ (31 + s) - x) := by
    rw [ht]
    ring
  have hpq : |(p : ℚ)| ≤ 65025 := by exact_mod_cast hp
  have h4 : |t - (p : ℚ) * x| ≤ 65025 * (1 / 2 ^ 31) := by
    rw [h3, abs_mul]
    exact mul_le_mul hpq h1.le (abs_nonneg _) (by norm_num)
  have h5 : (65025 : ℚ) * (1 / 2 ^ 31) ≤ 1 / 2 := by norm_num
  have htri : |((round t : ℤ) : ℚ) - (p : ℚ) * x| ≤
      |((round t : ℤ) : ℚ) - t| + |t - (p : ℚ) * x| := abs_sub_le _ _ _
  have h2' : |((round t : ℤ) : ℚ) - t| ≤ 1 / 2 := by rwa [abs_sub_comm] at h2
  linarith

/-- C7: for every quantization-parameter triple with
`realMultiplier = scale1 * scale2 / scaleOut` in `(0, 1)`, the computed
multiplier/shift pair satisfies
`|multiplier * 2 ^ (-(31 + shift)) - realMultiplier| < 2 ^ (-31)`, and
applying them to a zero-centered integer product (bounded by `255 * 255`)
reproduces the directly computed real-valued product within ±1 unit of the
output's quantization step. -/
theorem quantized_plan_accuracy (scale1 scale2 scaleOut : ℚ) (p : ℤ)
    (h0 : 0 < scale1 * scale2 / scaleOut) (h1 : scale1 * scale2 / scaleOut < 1)
    (hp : |p| ≤ 65025) :
    |((QuantizeMultiplierSmallerThanOne (scale1 * scale2 / scaleOut)).1 : ℚ) /
        2 ^ (31 + (QuantizeMultiplierSmallerThanOne (scale1 * scale2 / scaleOut)).2) -
        scale1 * scale2 / scaleOut| < 1 / 2 ^ 31 ∧
    |((applyMultiplier p (QuantizeMultiplierSmallerThanOne (scale1 * scale2 / scaleOut)).1
        (QuantizeMultiplierSmallerThanOne (scale1 * scale2 / scaleOut)).2 : ℤ) : ℚ) -
        p * (scale1 * scale2 / scaleOut)| ≤ 1 :=
  ⟨multiplier_error _ h0 h1, apply_multiplier_error _ p h0 h1 hp⟩

/-- Witness for `quantized_plan_accuracy`: scales `1, 1, 2` give real
multiplier `1/2`; product `6`. -/
theorem quantized_plan_accuracy_witness :
    (0 < (1 : ℚ) * 1 / 2 ∧ (1 : ℚ) * 1 / 2 < 1 ∧ |(6 : ℤ)| ≤ 65025) ∧
    (|((QuantizeMultiplierSmallerThanOne ((1 : ℚ) * 1 / 2)).1 : ℚ) /
        2 ^ (31 + (QuantizeMultiplierSmallerThanOne ((1 : ℚ) * 1 / 2)).2) -
        (1 : ℚ) * 1 / 2| < 1 / 2 ^ 31 ∧
      |((applyMultiplier 6 (QuantizeMultiplierSmallerThanOne ((1 : ℚ) * 1 / 2)).1
          (QuantizeMultiplierSmallerThanOne ((1 : ℚ) * 1 / 2)).2 : ℤ) : ℚ) -
          6 * ((1 : ℚ) * 1 / 2)| ≤ 1) :=
  ⟨⟨by norm_num, by norm_num, by norm_num⟩,
    quantized_plan_accuracy 1 1 2 6 (by norm_num) (by norm_num) (by norm_num)⟩

end TfLiteMul
